import Mathlib

/-!
# Verification of the ts-rest-api-express authentication pipeline

A shallow embedding of the repository's auth/user service layer:

* `ApiError` — `src/shared/utils/ApiError.ts` (tagged error with HTTP status).
* `Hashed`, `hashPassword`, `comparePassword` — `src/shared/utils/password.ts`,
  with bcrypt idealised as a symbolic salted one-way function: a hash is the
  (salt, plaintext) pair and `comparePassword` succeeds exactly on the
  plaintext that produced the hash.
* `generateToken`, `verifyToken` — `src/shared/utils/jwt.ts`, with the
  `jsonwebtoken` HMAC idealised as a symbolic MAC: the signature records the
  signing secret and the signed payload, and verification accepts exactly a
  signature made with the same secret over the same payload.  `jsonwebtoken`
  treats a token as expired once the clock reaches `exp`.
* `registerUser`, `loginUser`, `changePassword`, `requestPasswordReset`,
  `resetPassword` — `src/features/auth/auth.service.ts`, with the Mongo
  collection embedded as a list of `StoredUser` and `user.save()` /
  `findByIdAndUpdate` embedded as explicit state passing (operations return
  the new store; failure paths return the input store unchanged, as the code
  throws before any `save`).
* `authenticate`, `optionalAuth`, `requireSelfAccess` —
  `src/shared/middleware/auth.ts`.
* `generalLimiter`, `authLimiter`, `passwordResetLimiter`,
  `createAccountLimiter`, `rateLimitedRequest` —
  `src/shared/middleware/rateLimiter.ts`, with `express-rate-limit`'s
  per-key fixed-window store made explicit.
* `updateUser`, `UpdateUserData` — `src/features/users/user.service.ts` and
  the `updateUserSchema` body shape from `src/features/users/user.schemas.ts`.

The Mongoose `lowercase: true` setter on the `email` path (user.model.ts)
normalises stored emails and query filters to lower case, and the Zod schemas
apply `.toLowerCase()` to email inputs before the services run; email lookup
is therefore embedded as comparison of lower-cased strings (`normalizeEmail`).
-/

namespace TsRestApi

/-- Error model from `ApiError.ts`: a message plus an HTTP status code. -/
structure ApiError where
  message : String
  statusCode : Nat
deriving Repr, DecidableEq

/-- Symbolic bcrypt digest (`password.ts`): the salted one-way transform is
idealised as the pair of the salt and the hashed plaintext. -/
structure Hashed where
  salt : Nat
  plain : String
deriving Repr, DecidableEq

/-- `hashPassword` from `password.ts`: bcrypt hash with a salt. -/
def hashPassword (salt : Nat) (password : String) : Hashed :=
  ⟨salt, password⟩

/-- `comparePassword` from `password.ts`: true iff the candidate plaintext is
the one the hash was produced from. -/
def comparePassword (candidate : String) (hashed : Hashed) : Bool :=
  candidate == hashed.plain

/-- The Mongoose `lowercase: true` setter on the `email` path, also applied by
the Zod `.toLowerCase()` transforms and by `getUserByEmail`'s explicit
`email.toLowerCase()`. -/
def normalizeEmail (email : String) : String :=
  String.mk (email.data.map Char.toLower)

/-- A persisted user document (`user.model.ts` schema): `_id`, name, email
(stored lower-cased), password hash, age, and the optional password-reset
token/expiry pair.  Timestamps are irrelevant to the claims and omitted. -/
structure StoredUser where
  uid : String
  name : String
  email : String
  password : Hashed
  age : Nat
  passwordResetToken : Option String
  passwordResetExpires : Option Nat
deriving Repr, DecidableEq

/-- The serialised user produced by the schema's `toJSON` transform
(`user.model.ts`): `_id` becomes `id`; `__v` and `password` are deleted. -/
structure UserJson where
  id : String
  name : String
  email : String
  age : Nat
deriving Repr, DecidableEq

/-- `toJSON` transform of `user.model.ts`: drops the password hash. -/
def toJSON (u : StoredUser) : UserJson :=
  ⟨u.uid, u.name, u.email, u.age⟩

/-- The users collection. -/
abbrev UserStore := List StoredUser

/-- `User.findOne({ email })`: the lowercase setter applies to the filter
value, and stored emails are lower-cased, so the match is case-insensitive. -/
def findOneByEmail (store : UserStore) (email : String) : Option StoredUser :=
  store.find? (fun u => u.email == normalizeEmail email)

/-- `User.findById(userId)`. -/
def findById (store : UserStore) (userId : String) : Option StoredUser :=
  store.find? (fun u => u.uid == userId)

/-- `user.save()` / `findByIdAndUpdate` on an existing document: replaces the
document with the given `_id` by the updated one. -/
def updateById (store : UserStore) (userId : String) (f : StoredUser → StoredUser) :
    UserStore :=
  store.map (fun u => if u.uid == userId then f u else u)

/-! ## Token codec (`jwt.ts`) -/

/-- JWT claim set: user id and email, plus `iat`/`exp` added by `jwt.sign`. -/
structure JwtPayload where
  id : String
  email : String
  iat : Nat
  exp : Nat
deriving Repr, DecidableEq

/-- Symbolic HMAC signature: records the signing secret and the payload it
covers; verification with secret `s` accepts exactly signatures made with
`s` over the presented payload. -/
structure JwtSig where
  secret : String
  signedPayload : JwtPayload
deriving Repr, DecidableEq

/-- A compact token: either a structurally valid signed token or a blob that
does not parse as a JWT (which `jsonwebtoken` rejects as `JsonWebTokenError:
jwt malformed`). -/
inductive Token where
  | signed (payload : JwtPayload) (sig : JwtSig)
  | malformed (raw : String)
deriving Repr, DecidableEq

/-- `generateToken` from `jwt.ts`: `jwt.sign(payload, secret, {expiresIn})`,
which stamps `iat = now` and `exp = now + lifetime`. -/
def generateToken (now lifetime : Nat) (secret : String) (id email : String) : Token :=
  let p : JwtPayload := ⟨id, email, now, now + lifetime⟩
  .signed p ⟨secret, p⟩

/-- `verifyToken` from `jwt.ts`: `jwt.verify` checks the signature first
(failure: `JsonWebTokenError` → `ApiError('Invalid authentication token',
401)`), then expiry — a token is expired once the clock reaches `exp`
(failure: `TokenExpiredError` → `ApiError('Authentication token has expired',
401)`); on success the decoded payload is returned. -/
def verifyToken (now : Nat) (secret : String) : Token → Except ApiError JwtPayload
  | .malformed _ => .error ⟨"Invalid authentication token", 401⟩
  | .signed p sig =>
    if sig = (⟨secret, p⟩ : JwtSig) then
      if p.exp ≤ now then .error ⟨"Authentication token has expired", 401⟩
      else .ok p
    else .error ⟨"Invalid authentication token", 401⟩

/-! ## Auth service (`auth.service.ts`) -/

/-- Registration input (`auth.types.ts` `RegisterUserData`), as delivered by
the validated request body. -/
structure RegisterUserData where
  name : String
  email : String
  password : String
  age : Nat
deriving Repr, DecidableEq

/-- The `data` part of a successful register/login response
(`auth.types.ts` `AuthResponse`): the serialised user and the JWT. -/
structure AuthData where
  message : String
  user : UserJson
  token : Token
deriving Repr, DecidableEq

/-- `registerUser` from `auth.service.ts`: 409 `Conflict` when a user with
the email already exists; otherwise the user is created (password hashed by
the `pre('save')` hook, email lower-cased by the schema setter), a JWT is
issued for `{id, email}`, and the response carries `user.toJSON()` (password
dropped) plus the token.  `freshId` is the `_id` Mongo assigns; `salt` the
bcrypt salt drawn for the hash.  `newRegisteredUser` is the document built by
`new User(userData)` after the schema setter and `pre('save')` hook ran. -/
def newRegisteredUser (salt : Nat) (freshId : String)
    (userData : RegisterUserData) : StoredUser :=
  { uid := freshId
    name := userData.name
    email := normalizeEmail userData.email
    password := hashPassword salt userData.password
    age := userData.age
    passwordResetToken := none
    passwordResetExpires := none }

def registerUser (salt now lifetime : Nat) (secret freshId : String)
    (store : UserStore) (userData : RegisterUserData) :
    Except ApiError AuthData × UserStore :=
  match findOneByEmail store userData.email with
  | some _ => (.error ⟨"Email already registered", 409⟩, store)
  | none =>
    let u := newRegisteredUser salt freshId userData
    (.ok ⟨"User registered successfully", toJSON u,
          generateToken now lifetime secret u.uid u.email⟩,
     store ++ [u])

/-- `loginUser` from `auth.service.ts`: looks the user up by email including
the password hash; a missing user and a failed password comparison both raise
`ApiError('Invalid login credentials', 401)`; otherwise a token is issued. -/
def loginUser (now lifetime : Nat) (secret : String) (store : UserStore)
    (email password : String) : Except ApiError AuthData :=
  match findOneByEmail store email with
  | none => .error ⟨"Invalid login credentials", 401⟩
  | some user =>
    if comparePassword password user.password then
      .ok ⟨"Login successful", toJSON user,
           generateToken now lifetime secret user.uid user.email⟩
    else .error ⟨"Invalid login credentials", 401⟩

/-- `changePassword` from `auth.service.ts`: 404 when the subject is missing,
400 when the current password does not verify (thrown before any `save`, so
the store is returned unchanged), otherwise the new password is hashed by the
`pre('save')` hook and persisted. -/
def changePassword (salt : Nat) (store : UserStore)
    (userId currentPassword newPassword : String) :
    Except ApiError String × UserStore :=
  match findById store userId with
  | none => (.error ⟨"User not found", 404⟩, store)
  | some user =>
    if comparePassword currentPassword user.password then
      (.ok "Password changed successfully",
       updateById store user.uid
         (fun u => { u with password := hashPassword salt newPassword }))
    else (.error ⟨"Current password is incorrect", 400⟩, store)

/-- Hex digit table used by `Buffer.toString('hex')`. -/
def hexDigit (n : Nat) : Char :=
  (("0123456789abcdef".toList).getD n '0')

/-- One byte rendered as two lowercase hex digits. -/
def byteToHex (b : Nat) : String :=
  String.mk [hexDigit (b / 16 % 16), hexDigit (b % 16)]

/-- `crypto.randomBytes(n).toString('hex')`: the raw random bytes rendered in
hex, two digits per byte, concatenated in order. -/
def bytesToHex : List Nat → String
  | [] => ""
  | b :: bs => byteToHex b ++ bytesToHex bs

/-- Result value of `requestPasswordReset`: always `success: true`, with the
raw token present only on the existing-user branch. -/
structure ResetRequestResult where
  message : String
  resetToken : Option String
deriving Repr, DecidableEq

/-- `requestPasswordReset` from `auth.service.ts`: for an unknown email it
returns the generic success message and leaves the store untouched; for a
known email it draws 32 random bytes (`rand`), stores their hex encoding as
the reset token with expiry `now + 15 minutes`, and returns the raw token
with the message `'Password reset token generated'`. -/
def requestPasswordReset (now : Nat) (rand : List Nat) (store : UserStore)
    (email : String) : Except ApiError ResetRequestResult × UserStore :=
  match findOneByEmail store email with
  | none =>
    (.ok ⟨"If the email exists, a password reset link has been sent", none⟩, store)
  | some user =>
    let resetToken := bytesToHex rand
    let expiry := now + 15 * 60 * 1000
    (.ok ⟨"Password reset token generated", some resetToken⟩,
     updateById store user.uid
       (fun u => { u with passwordResetToken := some resetToken
                          passwordResetExpires := some expiry }))

/-- The filter of `resetPassword`'s `findOne`: stored reset token equals the
presented token and `passwordResetExpires: { $gt: new Date() }`. -/
def validResetTokenMatch (now : Nat) (token : String) (u : StoredUser) : Bool :=
  u.passwordResetToken == some token &&
    match u.passwordResetExpires with
    | some e => now < e
    | none => false

/-- `resetPassword` from `auth.service.ts`: 400 `'Invalid or expired reset
token'` when no user matches token-and-unexpired; otherwise the new password
is hashed and persisted and both reset fields are cleared (`null`). -/
def resetPassword (salt now : Nat) (store : UserStore)
    (token newPassword : String) : Except ApiError String × UserStore :=
  match store.find? (validResetTokenMatch now token) with
  | none => (.error ⟨"Invalid or expired reset token", 400⟩, store)
  | some user =>
    (.ok "Password reset successful",
     updateById store user.uid
       (fun u => { u with password := hashPassword salt newPassword
                          passwordResetToken := none
                          passwordResetExpires := none }))

/-! ## Authentication middleware (`auth.ts`) -/

/-- The `{id, email}` context attached to the request after successful
authentication (`AuthenticatedRequest.user`). -/
structure AuthContext where
  id : String
  email : String
deriving Repr, DecidableEq

/-- A request as the auth middleware sees it: the result of `extractToken`,
which returns the credential iff the `Authorization` header exists and starts
with `'Bearer '`.  (`bearer = some t` embeds a header `'Bearer <t>'`; `none`
embeds a missing or non-Bearer header.) -/
structure AuthRequest where
  bearer : Option Token
deriving Repr, DecidableEq

/-- `authenticate` from `auth.ts` (mandatory variant): missing bearer
credential → 401; failed token verification → the 401 `ApiError` thrown by
`verifyToken`; an empty `id`/`email` claim → 401; token email no longer
resolving to a user (`getUserByEmail`, which lower-cases) → 401; otherwise
`{id, email}` of the resolved user is attached. -/
def authenticate (now : Nat) (secret : String) (store : UserStore)
    (req : AuthRequest) : Except ApiError AuthContext :=
  match req.bearer with
  | none => .error ⟨"Access token is required. Please log in.", 401⟩
  | some token =>
    match verifyToken now secret token with
    | .error e => .error e
    | .ok decoded =>
      if decoded.id = "" ∨ decoded.email = "" then
        .error ⟨"Invalid token. Please log in again.", 401⟩
      else
        match findOneByEmail store decoded.email with
        | none => .error ⟨"The user belonging to this token no longer exists.", 401⟩
        | some currentUser => .ok ⟨currentUser.uid, currentUser.email⟩

/-- `optionalAuth` from `auth.ts`: the same steps as `authenticate`, but every
failure path calls `next()` with no context attached — it never rejects
(hence the result type has no error component). -/
def optionalAuth (now : Nat) (secret : String) (store : UserStore)
    (req : AuthRequest) : Option AuthContext :=
  match req.bearer with
  | none => none
  | some token =>
    match verifyToken now secret token with
    | .error _ => none
    | .ok decoded =>
      if decoded.id = "" ∨ decoded.email = "" then none
      else
        match findOneByEmail store decoded.email with
        | none => none
        | some currentUser => some ⟨currentUser.uid, currentUser.email⟩

/-- `requireSelfAccess` from `auth.ts`: 401 when no authenticated context is
attached; 400 when `req.params.id` is falsy (absent or empty); 403 when the
context id differs from the resource id; otherwise pass through.
`resourceId = none` embeds an absent route parameter. -/
def requireSelfAccess (user : Option AuthContext) (resourceId : Option String) :
    Except ApiError Unit :=
  match user with
  | none => .error ⟨"You must be logged in to access this resource.", 401⟩
  | some ctx =>
    match resourceId with
    | none => .error ⟨"Resource ID is required.", 400⟩
    | some rid =>
      if rid = "" then .error ⟨"Resource ID is required.", 400⟩
      else if ctx.id ≠ rid then
        .error ⟨"You can only access your own resources.", 403⟩
      else .ok ()

/-! ## Rate limiter (`rateLimiter.ts`) -/

/-- One `rateLimit({...})` policy: fixed window length, max count, whether
successful responses are excluded from the count, and the 429 message the
handler throws. -/
structure RateLimitPolicy where
  windowMs : Nat
  max : Nat
  skipSuccessfulRequests : Bool
  message : String
deriving Repr, DecidableEq

/-- `generalLimiter`: 100 requests per 15 minutes per IP. -/
def generalLimiter : RateLimitPolicy :=
  ⟨15 * 60 * 1000, 100, false,
   "Too many requests from this IP, please try again later."⟩

/-- `authLimiter`: 5 attempts per 15 minutes per IP, successful requests not
counted (`skipSuccessfulRequests: true`). -/
def authLimiter : RateLimitPolicy :=
  ⟨15 * 60 * 1000, 5, true,
   "Too many authentication attempts, please try again later."⟩

/-- `passwordResetLimiter`: 3 requests per hour per IP. -/
def passwordResetLimiter : RateLimitPolicy :=
  ⟨60 * 60 * 1000, 3, false,
   "Too many password reset attempts, please try again later."⟩

/-- `createAccountLimiter`: 1-hour window; `max` is the deployment's
configured ceiling, set to 100 in this source ("Temporarily increased for
testing"). -/
def createAccountLimiter : RateLimitPolicy :=
  ⟨60 * 60 * 1000, 100, false,
   "Too many accounts created from this IP, please try again later."⟩

/-- Per-client counter of `express-rate-limit`'s memory store: hits so far in
the current window and the instant the window resets. -/
structure ClientEntry where
  totalHits : Nat
  resetTime : Nat
deriving Repr, DecidableEq

/-- A limiter instance's store, keyed by client IP.  Each `rateLimit()` call
creates its own store, so distinct buckets never share state. -/
def LimiterState : Type := String → Option ClientEntry

/-- Fresh limiter store: no IP has been counted. -/
def LimiterState.empty : LimiterState := fun _ => none

/-- The store's increment: a fresh or elapsed-window entry restarts at zero
hits with `resetTime = now + windowMs`; then the hit is counted.  Returns the
hit count of this request and the new store. -/
def hitIncrement (policy : RateLimitPolicy) (st : LimiterState) (ip : String)
    (now : Nat) : Nat × LimiterState :=
  let entry : ClientEntry :=
    match st ip with
    | some e => if now < e.resetTime then e else ⟨0, now + policy.windowMs⟩
    | none => ⟨0, now + policy.windowMs⟩
  let e' : ClientEntry := ⟨entry.totalHits + 1, entry.resetTime⟩
  (e'.totalHits, fun k => if k = ip then some e' else st k)

/-- Decrement a client's hit count (used by `skipSuccessfulRequests` once a
response completes below status 400). -/
def decrementHit (st : LimiterState) (ip : String) : LimiterState :=
  fun k =>
    if k = ip then (st ip).map (fun e => ⟨e.totalHits - 1, e.resetTime⟩)
    else st k

/-- Outcome of a rate-limited request: either the handler ran (with its
success flag) or the limiter rejected the request with a 429 error first. -/
inductive LimitedOutcome where
  | handled (success : Bool)
  | rejected (e : ApiError)
deriving Repr, DecidableEq

/-- One request through a `rateLimit` middleware: the hit is counted; if the
count exceeds `max`, the handler throws the policy's 429 `ApiError` and the
route handler never runs (`handlerSuccess` is ignored); otherwise the handler
runs, and with `skipSuccessfulRequests` a successful response is removed from
the count afterwards. -/
def rateLimitedRequest (policy : RateLimitPolicy) (st : LimiterState)
    (ip : String) (now : Nat) (handlerSuccess : Bool) :
    LimitedOutcome × LimiterState :=
  let (hits, st') := hitIncrement policy st ip now
  if policy.max < hits then (.rejected ⟨policy.message, 429⟩, st')
  else
    let st'' := if policy.skipSuccessfulRequests && handlerSuccess
                then decrementHit st' ip else st'
    (.handled handlerSuccess, st'')

/-- The four limiter instances' stores, one per bucket — module-level
singletons in `rateLimiter.ts`, each with private per-IP state. -/
structure AppLimiters where
  general : LimiterState
  auth : LimiterState
  passwordReset : LimiterState
  createAccount : LimiterState

/-- A request through the `authLimiter` bucket only touches its own store. -/
def stepAuthBucket (s : AppLimiters) (ip : String) (now : Nat)
    (handlerSuccess : Bool) : LimitedOutcome × AppLimiters :=
  let (o, st) := rateLimitedRequest authLimiter s.auth ip now handlerSuccess
  (o, { s with auth := st })

/-- A request through the `generalLimiter` bucket only touches its own store. -/
def stepGeneralBucket (s : AppLimiters) (ip : String) (now : Nat)
    (handlerSuccess : Bool) : LimitedOutcome × AppLimiters :=
  let (o, st) := rateLimitedRequest generalLimiter s.general ip now handlerSuccess
  (o, { s with general := st })

/-! ## User service update (`user.service.ts` / `user.schemas.ts`) -/

/-- The validated body of `PUT /users/:id` (`updateUserSchema`): Zod strips
unknown keys, so only optional `name` and `age` survive validation. -/
structure UpdateUserData where
  name : Option String
  age : Option Nat
deriving Repr, DecidableEq

/-- The `$set` of exactly the provided fields. -/
def applyUpdate (d : UpdateUserData) (u : StoredUser) : StoredUser :=
  { u with name := d.name.getD u.name, age := d.age.getD u.age }

/-- `updateUser` from `user.service.ts`: `findByIdAndUpdate(userId, { $set:
updateData }, { new: true })` — 404 when the user is missing (store
untouched), otherwise the provided fields are set and the updated document is
serialised. -/
def updateUser (store : UserStore) (userId : String) (d : UpdateUserData) :
    Except ApiError UserJson × UserStore :=
  match findById store userId with
  | none => (.error ⟨"User not found", 404⟩, store)
  | some user =>
    (.ok (toJSON (applyUpdate d user)), updateById store user.uid (applyUpdate d))

/-- The fields of a stored user that `updateUser` must never touch: the
identifier, email, password hash, reset token and reset expiry — everything
except `name` and `age`. -/
def frameFields (u : StoredUser) :
    String × String × Hashed × Option String × Option Nat :=
  (u.uid, u.email, u.password, u.passwordResetToken, u.passwordResetExpires)

/-! ## Concrete demonstration data for witnesses and counterexamples -/

/-- A registered demo user (mirrors the spec's end-to-end scenario). -/
def demoUser : StoredUser :=
  { uid := "u1", name := "Jane Roe", email := "jane@example.com"
    password := hashPassword 7 "secret1", age := 30
    passwordResetToken := none, passwordResetExpires := none }

/-- A demo user holding a pending password-reset token that expires at 5000. -/
def demoResetUser : StoredUser :=
  { uid := "u2", name := "Bob Poe", email := "bob@example.com"
    password := hashPassword 3 "hunter2", age := 40
    passwordResetToken := some "tok123", passwordResetExpires := some 5000 }

/-- Demo users collection. -/
def demoStore : UserStore := [demoUser, demoResetUser]

/-- Demo limiter store: the demo IP has 100 counted hits in a window that
resets at 2000. -/
def demoGeneralState : LimiterState :=
  fun k => if k = "9.9.9.9" then some ⟨100, 2000⟩ else none

/-- Demo auth-limiter store: the demo IP has 2 counted hits in a window that
resets at 2000. -/
def demoAuthState : LimiterState :=
  fun k => if k = "9.9.9.9" then some ⟨2, 2000⟩ else none

/-! ## Theorems -/

/-- Length bookkeeping for the hex encoder: two characters per byte. -/
theorem bytesToHex_length (bs : List Nat) :
    (bytesToHex bs).length = 2 * bs.length := by
  induction bs with
  | nil => rfl
  | cons b bs ih =>
    show (byteToHex b ++ bytesToHex bs).length = 2 * (bs.length + 1)
    rw [String.length_append, ih]
    have hb : (byteToHex b).length = 2 := rfl
    rw [hb]
    ring

/-- Claim C2: for every login attempt, a nonexistent email and a password
that fails verification both make `loginUser` fail with the identical
`Unauthorized` error `('Invalid login credentials', 401)`, so the two failure
causes are indistinguishable to the client. -/
theorem C2_loginUser_indistinguishable_failures
    (now lifetime : Nat) (secret : String) (store : UserStore)
    (email password : String)
    (h : findOneByEmail store email = none ∨
      ∃ u, findOneByEmail store email = some u ∧
        comparePassword password u.password = false) :
    loginUser now lifetime secret store email password =
      .error ⟨"Invalid login credentials", 401⟩ := by
  rcases h with h | ⟨u, hu, hpw⟩
  · simp [loginUser, h]
  · simp [loginUser, hu, hpw]

/-- Witness for C2: in the demo store, logging in with an unknown email and
logging in with a wrong password for Jane both yield the same 401 error. -/
theorem C2_loginUser_indistinguishable_failures_witness :
    loginUser 0 604800 "k" demoStore "nobody@example.com" "secret1" =
        .error ⟨"Invalid login credentials", 401⟩ ∧
      loginUser 0 604800 "k" demoStore "jane@example.com" "wrongpw" =
        .error ⟨"Invalid login credentials", 401⟩ :=
  ⟨C2_loginUser_indistinguishable_failures 0 604800 "k" demoStore
      "nobody@example.com" "secret1" (Or.inl (by decide)),
   C2_loginUser_indistinguishable_failures 0 604800 "k" demoStore
      "jane@example.com" "wrongpw"
      (Or.inr ⟨demoUser, by decide, by decide⟩)⟩

/-- Claim C4: `changePassword` fails `NotFound` (404) when the subject is
missing, fails `BadRequest` (400) with the stored hash (indeed the whole
store) unchanged when the current password does not verify, and re-hashes and
persists the new password only when the current password verifies. -/
theorem C4_changePassword_guarded_mutation
    (salt : Nat) (store : UserStore) (userId currentPassword newPassword : String) :
    (findById store userId = none →
      changePassword salt store userId currentPassword newPassword =
        (.error ⟨"User not found", 404⟩, store)) ∧
    (∀ u, findById store userId = some u →
      comparePassword currentPassword u.password = false →
      changePassword salt store userId currentPassword newPassword =
        (.error ⟨"Current password is incorrect", 400⟩, store)) ∧
    (∀ u, findById store userId = some u →
      comparePassword currentPassword u.password = true →
      changePassword salt store userId currentPassword newPassword =
        (.ok "Password changed successfully",
         updateById store u.uid
           (fun v => { v with password := hashPassword salt newPassword }))) := by
  refine ⟨fun h => ?_, fun u hu hpw => ?_, fun u hu hpw => ?_⟩
  · simp [changePassword, h]
  · simp [changePassword, hu, hpw]
  · simp [changePassword, hu, hpw]

/-- Witness for C4: in the demo store, a missing subject gives 404, a wrong
current password gives 400 and leaves the store as it was, and the correct
current password re-hashes Jane's password. -/
theorem C4_changePassword_guarded_mutation_witness :
    changePassword 9 demoStore "ghost" "secret1" "newpw99" =
        (.error ⟨"User not found", 404⟩, demoStore) ∧
      changePassword 9 demoStore "u1" "badguess" "newpw99" =
        (.error ⟨"Current password is incorrect", 400⟩, demoStore) ∧
      changePassword 9 demoStore "u1" "secret1" "newpw99" =
        (.ok "Password changed successfully",
         updateById demoStore "u1"
           (fun v => { v with password := hashPassword 9 "newpw99" })) :=
  ⟨(C4_changePassword_guarded_mutation 9 demoStore "ghost" "secret1" "newpw99").1
      (by decide),
   (C4_changePassword_guarded_mutation 9 demoStore "u1" "badguess" "newpw99").2.1
      demoUser (by decide) (by decide),
   (C4_changePassword_guarded_mutation 9 demoStore "u1" "secret1" "newpw99").2.2
      demoUser (by decide) (by decide)⟩

/-- Claim C6: a token produced by `generateToken` verifies before its expiry
to a payload carrying the subject's id and email; at or after expiry
verification fails with the expiry-specific error; a token signed under a
different secret, or a malformed blob, fails with the invalid-token error. -/
theorem C6_token_roundtrip
    (id email secret : String) (now lifetime t : Nat) :
    (t < now + lifetime →
      verifyToken t secret (generateToken now lifetime secret id email) =
        .ok ⟨id, email, now, now + lifetime⟩) ∧
    (now + lifetime ≤ t →
      verifyToken t secret (generateToken now lifetime secret id email) =
        .error ⟨"Authentication token has expired", 401⟩) ∧
    (∀ secret', secret' ≠ secret →
      verifyToken t secret' (generateToken now lifetime secret id email) =
        .error ⟨"Invalid authentication token", 401⟩) ∧
    (∀ raw, verifyToken t secret (.malformed raw) =
      .error ⟨"Invalid authentication token", 401⟩) := by
  refine ⟨fun h => ?_, fun h => ?_, fun secret' hs => ?_, fun raw => rfl⟩
  · simp [verifyToken, generateToken, Nat.not_le.mpr h]
  · simp [verifyToken, generateToken, h]
  · simp [verifyToken, generateToken, JwtSig.mk.injEq, Ne.symm hs]

/-- Witness for C6: a concrete token for Jane verifies at time 10 and yields
her id, is expired at time 604800, and fails as invalid under the wrong
secret and for a malformed blob. -/
theorem C6_token_roundtrip_witness :
    verifyToken 10 "k" (generateToken 0 604800 "k" "u1" "jane@example.com") =
        .ok ⟨"u1", "jane@example.com", 0, 604800⟩ ∧
      verifyToken 604800 "k" (generateToken 0 604800 "k" "u1" "jane@example.com") =
        .error ⟨"Authentication token has expired", 401⟩ ∧
      verifyToken 10 "evil" (generateToken 0 604800 "k" "u1" "jane@example.com") =
        .error ⟨"Invalid authentication token", 401⟩ ∧
      verifyToken 10 "k" (.malformed "garbage") =
        .error ⟨"Invalid authentication token", 401⟩ :=
  ⟨(C6_token_roundtrip "u1" "jane@example.com" "k" 0 604800 10).1 (by decide),
   (C6_token_roundtrip "u1" "jane@example.com" "k" 0 604800 604800).2.1 (by decide),
   (C6_token_roundtrip "u1" "jane@example.com" "k" 0 604800 10).2.2.1 "evil"
      (by decide),
   (C6_token_roundtrip "u1" "jane@example.com" "k" 0 604800 10).2.2.2 "garbage"⟩

/-- Claim C7: the self-access rule fails `Unauthorized` (401) with no
authenticated context, `BadRequest` (400) when the route's resource-id
parameter is absent, `Forbidden` (403) when the context id differs from the
resource id, and passes through exactly when they are equal. -/
theorem C7_requireSelfAccess_cases
    (ctx : AuthContext) (resourceId : Option String) (rid : String) :
    (requireSelfAccess none resourceId =
      .error ⟨"You must be logged in to access this resource.", 401⟩) ∧
    (requireSelfAccess (some ctx) none =
      .error ⟨"Resource ID is required.", 400⟩) ∧
    (rid ≠ "" → ctx.id ≠ rid →
      requireSelfAccess (some ctx) (some rid) =
        .error ⟨"You can only access your own resources.", 403⟩) ∧
    (rid ≠ "" → ctx.id = rid →
      requireSelfAccess (some ctx) (some rid) = .ok ()) := by
  refine ⟨rfl, rfl, fun hne hid => ?_, fun hne hid => ?_⟩
  · simp [requireSelfAccess, hne, hid]
  · simp [requireSelfAccess, hne, hid]

/-- Witness for C7: a context with id `"A"` requesting resource `"B"` is
rejected 403 while requesting `"A"` passes, and the missing-context and
missing-parameter rejections fire on concrete inputs. -/
theorem C7_requireSelfAccess_cases_witness :
    (requireSelfAccess none (some "A") =
      .error ⟨"You must be logged in to access this resource.", 401⟩) ∧
    (requireSelfAccess (some ⟨"A", "a@x.com"⟩) none =
      .error ⟨"Resource ID is required.", 400⟩) ∧
    (requireSelfAccess (some ⟨"A", "a@x.com"⟩) (some "B") =
      .error ⟨"You can only access your own resources.", 403⟩) ∧
    (requireSelfAccess (some ⟨"A", "a@x.com"⟩) (some "A") = .ok ()) :=
  ⟨(C7_requireSelfAccess_cases ⟨"A", "a@x.com"⟩ (some "A") "B").1,
   (C7_requireSelfAccess_cases ⟨"A", "a@x.com"⟩ (some "A") "B").2.1,
   (C7_requireSelfAccess_cases ⟨"A", "a@x.com"⟩ (some "A") "B").2.2.1
      (by decide) (by decide),
   (C7_requireSelfAccess_cases ⟨"A", "a@x.com"⟩ (some "A") "A").2.2.2
      (by decide) (by decide)⟩

/-- Claim C10: `updateUser` can only change the `name` and `age` fields of
stored users — every user's identifier, email, password hash, reset token and
reset expiry are unchanged by the operation, whether it succeeds or fails
`NotFound` (the validated update body admits only `name` and `age`). -/
theorem C10_updateUser_frame_effect
    (store : UserStore) (userId : String) (d : UpdateUserData) :
    ((updateUser store userId d).2).map frameFields = store.map frameFields := by
  unfold updateUser
  cases h : findById store userId with
  | none => simp
  | some user =>
    simp only [updateById, List.map_map]
    refine List.map_congr_left (fun u _ => ?_)
    by_cases hc : u.uid == user.uid <;>
      simp [Function.comp, hc, frameFields, applyUpdate]

/-- Claim C5: registration fails `Conflict` (409) when a user with the same
email, compared case-insensitively, already exists in a store whose emails
are normalised (the schema's lowercase setter); otherwise the user is created
with the password stored as a hash, and the result carries a token and the
serialised user, whose shape is independent of the password field. -/
theorem C5_registerUser_conflict_and_create
    (salt now lifetime : Nat) (secret freshId : String) (store : UserStore)
    (userData : RegisterUserData)
    (hNorm : ∀ u ∈ store, u.email = normalizeEmail u.email) :
    ((∃ u ∈ store, normalizeEmail u.email = normalizeEmail userData.email) →
      registerUser salt now lifetime secret freshId store userData =
        (.error ⟨"Email already registered", 409⟩, store)) ∧
    ((∀ u ∈ store, normalizeEmail u.email ≠ normalizeEmail userData.email) →
      registerUser salt now lifetime secret freshId store userData =
        (.ok ⟨"User registered successfully",
              toJSON (newRegisteredUser salt freshId userData),
              generateToken now lifetime secret freshId
                (normalizeEmail userData.email)⟩,
         store ++ [newRegisteredUser salt freshId userData]) ∧
      (newRegisteredUser salt freshId userData).password =
        hashPassword salt userData.password ∧
      (∀ p, toJSON { newRegisteredUser salt freshId userData with password := p } =
        toJSON (newRegisteredUser salt freshId userData))) := by
  constructor
  · rintro ⟨u, hu, he⟩
    have hp : (findOneByEmail store userData.email).isSome := by
      unfold findOneByEmail
      rw [List.find?_isSome]
      refine ⟨u, hu, ?_⟩
      rw [beq_iff_eq, hNorm u hu]
      exact he
    unfold registerUser
    cases hf : findOneByEmail store userData.email with
    | none => rw [hf] at hp; simp at hp
    | some v => simp [hf]
  · intro hAll
    have hf : findOneByEmail store userData.email = none := by
      unfold findOneByEmail
      rw [List.find?_eq_none]
      intro x hx hbe
      rw [beq_iff_eq] at hbe
      exact hAll x hx (by rw [← hNorm x hx]; exact hbe)
    refine ⟨?_, rfl, fun p => rfl⟩
    simp [registerUser, hf, newRegisteredUser]

/-- Witness for C5: registering `JANE@EXAMPLE.COM` over the demo store (which
holds `jane@example.com`) yields 409, while a fresh email creates the user
with a hashed password and a token. -/
theorem C5_registerUser_conflict_and_create_witness :
    registerUser 5 0 604800 "k" "u9" demoStore
        ⟨"Jane Roe", "JANE@EXAMPLE.COM", "secret1", 30⟩ =
      (.error ⟨"Email already registered", 409⟩, demoStore) ∧
    registerUser 5 0 604800 "k" "u9" demoStore
        ⟨"New Person", "new@example.com", "pw12345", 22⟩ =
      (.ok ⟨"User registered successfully",
            toJSON (newRegisteredUser 5 "u9" ⟨"New Person", "new@example.com", "pw12345", 22⟩),
            generateToken 0 604800 "k" "u9" (normalizeEmail "new@example.com")⟩,
       demoStore ++ [newRegisteredUser 5 "u9" ⟨"New Person", "new@example.com", "pw12345", 22⟩]) :=
  ⟨(C5_registerUser_conflict_and_create 5 0 604800 "k" "u9" demoStore
      ⟨"Jane Roe", "JANE@EXAMPLE.COM", "secret1", 30⟩ (by decide)).1
      ⟨demoUser, by decide, by decide⟩,
   ((C5_registerUser_conflict_and_create 5 0 604800 "k" "u9" demoStore
      ⟨"New Person", "new@example.com", "pw12345", 22⟩ (by decide)).2
      (by decide)).1⟩

/-- Claim C1 counterexample: `requestPasswordReset` does not return the same
message (nor the same shape) for an existing and a nonexistent email — for
the demo store, the existing-email result carries the message `'Password
reset token generated'` and the raw reset token, while the nonexistent-email
result carries the generic message and no token. -/
theorem C1_counterexample :
    (requestPasswordReset 0 (List.replicate 32 0) demoStore
        "jane@example.com").1 =
      .ok ⟨"Password reset token generated",
           some (bytesToHex (List.replicate 32 0))⟩ ∧
    (requestPasswordReset 0 (List.replicate 32 0) demoStore
        "nobody@example.com").1 =
      .ok ⟨"If the email exists, a password reset link has been sent", none⟩ ∧
    ("Password reset token generated" : String) ≠
      "If the email exists, a password reset link has been sent" := by
  refine ⟨?_, ?_, by decide⟩ <;> rfl

/-- Claim C1 (amended): `requestPasswordReset` always returns a success
(`Except.ok`) result whether or not the email exists; when no user with the
email exists the result carries the generic message and never contains a
reset token, and the store is untouched; when one exists, the hex encoding of
the 32 fresh random bytes (64 hex characters) is stored on the user as the
reset token with an expiry 15 minutes from now, and is returned together with
the message `'Password reset token generated'`. -/
theorem C1_requestPasswordReset_amended
    (now : Nat) (rand : List Nat) (store : UserStore) (email : String) :
    (findOneByEmail store email = none →
      requestPasswordReset now rand store email =
        (.ok ⟨"If the email exists, a password reset link has been sent", none⟩,
         store)) ∧
    (∀ u, findOneByEmail store email = some u →
      requestPasswordReset now rand store email =
        (.ok ⟨"Password reset token generated", some (bytesToHex rand)⟩,
         updateById store u.uid (fun v =>
           { v with passwordResetToken := some (bytesToHex rand)
                    passwordResetExpires := some (now + 15 * 60 * 1000) }))) ∧
    (rand.length = 32 → (bytesToHex rand).length = 64) := by
  refine ⟨fun h => ?_, fun u hu => ?_, fun h32 => ?_⟩
  · simp [requestPasswordReset, h]
  · simp [requestPasswordReset, hu]
  · rw [bytesToHex_length, h32]

/-- Witness for C1 (amended): on the demo store, a nonexistent email yields
the generic result and an unchanged store, the existing email stores and
returns the 64-character token, and 32 bytes encode to 64 characters. -/
theorem C1_requestPasswordReset_amended_witness :
    requestPasswordReset 0 (List.replicate 32 171) demoStore "nobody@example.com" =
      (.ok ⟨"If the email exists, a password reset link has been sent", none⟩,
       demoStore) ∧
    requestPasswordReset 0 (List.replicate 32 171) demoStore "jane@example.com" =
      (.ok ⟨"Password reset token generated",
            some (bytesToHex (List.replicate 32 171))⟩,
       updateById demoStore "u1" (fun v =>
         { v with passwordResetToken := some (bytesToHex (List.replicate 32 171))
                  passwordResetExpires := some (0 + 15 * 60 * 1000) })) ∧
    (bytesToHex (List.replicate 32 171)).length = 64 :=
  ⟨(C1_requestPasswordReset_amended 0 (List.replicate 32 171) demoStore
      "nobody@example.com").1 (by decide),
   (C1_requestPasswordReset_amended 0 (List.replicate 32 171) demoStore
      "jane@example.com").2.1 demoUser (by decide),
   (C1_requestPasswordReset_amended 0 (List.replicate 32 171) demoStore
      "jane@example.com").2.2 (by decide)⟩

/-- Claim C3: `resetPassword` fails `BadRequest` (400) when no user holds the
presented token unexpired (wrong and expired tokens indistinguishably);
otherwise it re-hashes and persists the new password and unconditionally
clears both reset fields, so that — when the token identified a unique
holder, as freshly drawn reset tokens do — a second call with the same token
fails `BadRequest` at any later instant. -/
theorem C3_resetPassword_single_use
    (salt now : Nat) (store : UserStore) (token newPassword : String) :
    (store.find? (validResetTokenMatch now token) = none →
      resetPassword salt now store token newPassword =
        (.error ⟨"Invalid or expired reset token", 400⟩, store)) ∧
    (∀ u, store.find? (validResetTokenMatch now token) = some u →
      resetPassword salt now store token newPassword =
        (.ok "Password reset successful",
         updateById store u.uid (fun v =>
           { v with password := hashPassword salt newPassword
                    passwordResetToken := none
                    passwordResetExpires := none }))) ∧
    (∀ u, store.find? (validResetTokenMatch now token) = some u →
      (∀ v ∈ store, v.passwordResetToken = some token → v.uid = u.uid) →
      ∀ salt' now' pw',
        (resetPassword salt' now'
            (resetPassword salt now store token newPassword).2 token pw').1 =
          .error ⟨"Invalid or expired reset token", 400⟩) := by
  refine ⟨fun h => ?_, fun u hu => ?_, fun u hu hUniq salt' now' pw' => ?_⟩
  · simp [resetPassword, h]
  · simp [resetPassword, hu]
  · have h2 : (resetPassword salt now store token newPassword).2 =
        updateById store u.uid (fun v =>
          { v with password := hashPassword salt newPassword
                   passwordResetToken := none
                   passwordResetExpires := none }) := by
      simp [resetPassword, hu]
    rw [h2]
    have hnone : (updateById store u.uid (fun v =>
        { v with password := hashPassword salt newPassword
                 passwordResetToken := none
                 passwordResetExpires := none })).find?
          (validResetTokenMatch now' token) = none := by
      rw [List.find?_eq_none]
      intro x hx
      unfold updateById at hx
      rw [List.mem_map] at hx
      obtain ⟨w, hw, hwx⟩ := hx
      cases hc : (w.uid == u.uid) with
      | true =>
        rw [hc] at hwx
        simp only [if_true] at hwx
        rw [← hwx]
        simp [validResetTokenMatch]
      | false =>
        rw [hc] at hwx
        simp only [if_false] at hwx
        rw [← hwx]
        intro hmatch
        have h1 : w.passwordResetToken = some token := by
          have hand := (Bool.and_eq_true _ _).mp hmatch
          exact beq_iff_eq.mp hand.1
        have huid := hUniq w hw h1
        rw [huid] at hc
        simp at hc
    simp [resetPassword, hnone]

/-- Witness for C3: in the demo store Bob holds token `tok123` until 5000;
at time 100 a wrong token fails 400, the right token succeeds and clears the
fields, and replaying `tok123` against the resulting store fails 400. -/
theorem C3_resetPassword_single_use_witness :
    resetPassword 4 100 demoStore "wrongtok" "npw999" =
        (.error ⟨"Invalid or expired reset token", 400⟩, demoStore) ∧
      resetPassword 4 100 demoStore "tok123" "npw999" =
        (.ok "Password reset successful",
         updateById demoStore "u2" (fun v =>
           { v with password := hashPassword 4 "npw999"
                    passwordResetToken := none
                    passwordResetExpires := none })) ∧
      (resetPassword 4 200 (resetPassword 4 100 demoStore "tok123" "npw999").2
          "tok123" "npw777").1 =
        .error ⟨"Invalid or expired reset token", 400⟩ :=
  ⟨(C3_resetPassword_single_use 4 100 demoStore "wrongtok" "npw999").1 (by decide),
   (C3_resetPassword_single_use 4 100 demoStore "tok123" "npw999").2.1
      demoResetUser (by decide),
   (C3_resetPassword_single_use 4 100 demoStore "tok123" "npw999").2.2
      demoResetUser (by decide) (by decide) 4 200 "npw777"⟩

/-- Every failure of the token codec's `verify` carries HTTP status 401. -/
theorem verifyToken_error_statusCode (now : Nat) (secret : String) (t : Token)
    (e : ApiError) (h : verifyToken now secret t = .error e) :
    e.statusCode = 401 := by
  cases t with
  | malformed raw =>
    simp only [verifyToken] at h
    injection h with h'
    rw [← h']
  | signed p sig =>
    simp only [verifyToken] at h
    split at h
    · split at h
      · injection h with h'
        rw [← h']
      · simp at h
    · injection h with h'
      rw [← h']

/-- Claim C8: in the mandatory authentication middleware a missing bearer
credential, a failed token verification, and a token whose email claim no
longer resolves to a user each end in a 401 rejection, and success attaches
`{id, email}`; the optional variant passes through with no context in each of
those failure cases and attaches the same context on success (by
construction it returns a pass-through in every case, never a rejection). -/
theorem C8_authenticate_and_optionalAuth
    (now : Nat) (secret : String) (store : UserStore) (req : AuthRequest) :
    (req.bearer = none →
      authenticate now secret store req =
          .error ⟨"Access token is required. Please log in.", 401⟩ ∧
        optionalAuth now secret store req = none) ∧
    (∀ t e, req.bearer = some t → verifyToken now secret t = .error e →
      authenticate now secret store req = .error e ∧ e.statusCode = 401 ∧
        optionalAuth now secret store req = none) ∧
    (∀ t p, req.bearer = some t → verifyToken now secret t = .ok p →
      p.id ≠ "" → p.email ≠ "" → findOneByEmail store p.email = none →
      authenticate now secret store req =
          .error ⟨"The user belonging to this token no longer exists.", 401⟩ ∧
        optionalAuth now secret store req = none) ∧
    (∀ t p u, req.bearer = some t → verifyToken now secret t = .ok p →
      p.id ≠ "" → p.email ≠ "" → findOneByEmail store p.email = some u →
      authenticate now secret store req = .ok ⟨u.uid, u.email⟩ ∧
        optionalAuth now secret store req = some ⟨u.uid, u.email⟩) := by
  refine ⟨fun h => ⟨?_, ?_⟩,
          fun t e hb hv => ⟨?_, verifyToken_error_statusCode now secret t e hv, ?_⟩,
          fun t p hb hv hid hem hf => ⟨?_, ?_⟩,
          fun t p u hb hv hid hem hf => ⟨?_, ?_⟩⟩
  · simp [authenticate, h]
  · simp [optionalAuth, h]
  · simp [authenticate, hb, hv]
  · simp [optionalAuth, hb, hv]
  · simp [authenticate, hb, hv, hid, hem, hf]
  · simp [optionalAuth, hb, hv, hid, hem, hf]
  · simp [authenticate, hb, hv, hid, hem, hf]
  · simp [optionalAuth, hb, hv, hid, hem, hf]

/-- Witness for C8: against the demo store with secret `k`, a missing header
rejects 401 while `optionalAuth` passes; an expired token rejects with the
expiry error; a token for a deleted user rejects with the holder-gone error;
and Jane's valid token attaches `{u1, jane@example.com}`. -/
theorem C8_authenticate_and_optionalAuth_witness :
    (authenticate 10 "k" demoStore ⟨none⟩ =
        .error ⟨"Access token is required. Please log in.", 401⟩ ∧
      optionalAuth 10 "k" demoStore ⟨none⟩ = none) ∧
    (authenticate 700000 "k" demoStore
          ⟨some (generateToken 0 604800 "k" "u1" "jane@example.com")⟩ =
        .error ⟨"Authentication token has expired", 401⟩ ∧
      (⟨"Authentication token has expired", 401⟩ : ApiError).statusCode = 401 ∧
      optionalAuth 700000 "k" demoStore
          ⟨some (generateToken 0 604800 "k" "u1" "jane@example.com")⟩ = none) ∧
    (authenticate 10 "k" demoStore
          ⟨some (generateToken 0 604800 "k" "zz" "ghost@example.com")⟩ =
        .error ⟨"The user belonging to this token no longer exists.", 401⟩ ∧
      optionalAuth 10 "k" demoStore
          ⟨some (generateToken 0 604800 "k" "zz" "ghost@example.com")⟩ = none) ∧
    (authenticate 10 "k" demoStore
          ⟨some (generateToken 0 604800 "k" "u1" "jane@example.com")⟩ =
        .ok ⟨"u1", "jane@example.com"⟩ ∧
      optionalAuth 10 "k" demoStore
          ⟨some (generateToken 0 604800 "k" "u1" "jane@example.com")⟩ =
        some ⟨"u1", "jane@example.com"⟩) :=
  ⟨(C8_authenticate_and_optionalAuth 10 "k" demoStore ⟨none⟩).1 rfl,
   (C8_authenticate_and_optionalAuth 700000 "k" demoStore
      ⟨some (generateToken 0 604800 "k" "u1" "jane@example.com")⟩).2.1
      (generateToken 0 604800 "k" "u1" "jane@example.com")
      ⟨"Authentication token has expired", 401⟩ rfl rfl,
   (C8_authenticate_and_optionalAuth 10 "k" demoStore
      ⟨some (generateToken 0 604800 "k" "zz" "ghost@example.com")⟩).2.2.1
      (generateToken 0 604800 "k" "zz" "ghost@example.com")
      ⟨"zz", "ghost@example.com", 0, 604800⟩ rfl rfl (by decide)
      (by decide) (by decide),
   (C8_authenticate_and_optionalAuth 10 "k" demoStore
      ⟨some (generateToken 0 604800 "k" "u1" "jane@example.com")⟩).2.2.2
      (generateToken 0 604800 "k" "u1" "jane@example.com")
      ⟨"u1", "jane@example.com", 0, 604800⟩ demoUser rfl rfl (by decide)
      (by decide) (by decide)⟩

/-- Claim C9: once an IP's counted hits in a bucket's current window have
reached the bucket's max, every further request from that IP in that window
is rejected with the bucket's 429 error regardless of what the handler would
have done (the handler never runs); the bucket parameters are general 15
min/100, auth 15 min/5 with successful attempts excluded from the count,
password reset 1 h/3, account creation 1 h (ceiling 100 in this source); and
a request counted in one bucket never changes another bucket's state. -/
theorem C9_rate_limit_buckets
    (policy : RateLimitPolicy) (st : LimiterState) (ip : String)
    (now : Nat) (e : ClientEntry) (handlerSuccess : Bool) :
    (st ip = some e → now < e.resetTime → policy.max ≤ e.totalHits →
      rateLimitedRequest policy st ip now handlerSuccess =
        (.rejected ⟨policy.message, 429⟩,
         fun k => if k = ip then some ⟨e.totalHits + 1, e.resetTime⟩ else st k)) ∧
    (st ip = some e → now < e.resetTime → policy.max ≤ e.totalHits →
      ∀ now' hs', now' < e.resetTime →
        (rateLimitedRequest policy
            (rateLimitedRequest policy st ip now handlerSuccess).2
            ip now' hs').1 = .rejected ⟨policy.message, 429⟩) ∧
    (generalLimiter.windowMs = 15 * 60 * 1000 ∧ generalLimiter.max = 100 ∧
      authLimiter.windowMs = 15 * 60 * 1000 ∧ authLimiter.max = 5 ∧
      authLimiter.skipSuccessfulRequests = true ∧
      passwordResetLimiter.windowMs = 60 * 60 * 1000 ∧
      passwordResetLimiter.max = 3 ∧
      createAccountLimiter.windowMs = 60 * 60 * 1000 ∧
      createAccountLimiter.max = 100) ∧
    (st ip = some e → now < e.resetTime → e.totalHits + 1 ≤ authLimiter.max →
      (rateLimitedRequest authLimiter st ip now true).2 ip =
        some ⟨e.totalHits, e.resetTime⟩) ∧
    (∀ s : AppLimiters,
      (stepAuthBucket s ip now handlerSuccess).2.general = s.general ∧
      (stepAuthBucket s ip now handlerSuccess).2.passwordReset = s.passwordReset ∧
      (stepAuthBucket s ip now handlerSuccess).2.createAccount = s.createAccount ∧
      (stepGeneralBucket s ip now handlerSuccess).2.auth = s.auth ∧
      (stepGeneralBucket s ip now handlerSuccess).2.passwordReset = s.passwordReset ∧
      (stepGeneralBucket s ip now handlerSuccess).2.createAccount = s.createAccount) := by
  have hstep : ∀ (st' : LimiterState) (e' : ClientEntry) (now'' : Nat)
      (hs'' : Bool), st' ip = some e' → now'' < e'.resetTime →
      policy.max ≤ e'.totalHits →
      rateLimitedRequest policy st' ip now'' hs'' =
        (.rejected ⟨policy.message, 429⟩,
         fun k => if k = ip then some ⟨e'.totalHits + 1, e'.resetTime⟩
                  else st' k) := by
    intro st' e' now'' hs'' h1 h2 h3
    unfold rateLimitedRequest hitIncrement
    rw [h1]
    simp only [if_pos h2, if_pos (Nat.lt_succ_of_le h3)]
  refine ⟨fun h1 h2 h3 => hstep st e now handlerSuccess h1 h2 h3,
          fun h1 h2 h3 now' hs' h2' => ?_,
          ⟨rfl, rfl, rfl, rfl, rfl, rfl, rfl, rfl, rfl⟩,
          fun h1 h2 h3 => ?_,
          fun s => ⟨rfl, rfl, rfl, rfl, rfl, rfl⟩⟩
  · rw [hstep st e now handlerSuccess h1 h2 h3]
    rw [hstep (fun k => if k = ip then some ⟨e.totalHits + 1, e.resetTime⟩
          else st k) ⟨e.totalHits + 1, e.resetTime⟩ now' hs'
          (by simp) h2' (Nat.le_succ_of_le h3)]
  · unfold rateLimitedRequest hitIncrement decrementHit
    rw [h1]
    simp only [if_pos h2]
    rw [if_neg (by omega)]
    simp [authLimiter]

/-- Witness for C9: the demo IP with 100 counted general hits in the live
window is rejected with the 429 error (handler outcome irrelevant), stays
rejected on the next in-window request, and a successful auth attempt at 2
counted hits leaves the auth count at 2. -/
theorem C9_rate_limit_buckets_witness :
    rateLimitedRequest generalLimiter demoGeneralState "9.9.9.9" 100 true =
        (.rejected ⟨"Too many requests from this IP, please try again later.",
                    429⟩,
         fun k => if k = "9.9.9.9" then some ⟨101, 2000⟩
                  else demoGeneralState k) ∧
      (rateLimitedRequest generalLimiter
          (rateLimitedRequest generalLimiter demoGeneralState
            "9.9.9.9" 100 true).2 "9.9.9.9" 150 false).1 =
        .rejected ⟨"Too many requests from this IP, please try again later.",
                   429⟩ ∧
      (rateLimitedRequest authLimiter demoAuthState "9.9.9.9" 100 true).2
          "9.9.9.9" =
        some ⟨2, 2000⟩ :=
  ⟨(C9_rate_limit_buckets generalLimiter demoGeneralState "9.9.9.9" 100
      ⟨100, 2000⟩ true).1 (by decide) (by decide) (by decide),
   (C9_rate_limit_buckets generalLimiter demoGeneralState "9.9.9.9" 100
      ⟨100, 2000⟩ true).2.1 (by decide) (by decide) (by decide) 150 false
      (by decide),
   (C9_rate_limit_buckets authLimiter demoAuthState "9.9.9.9" 100
      ⟨2, 2000⟩ true).2.2.2.1 (by decide) (by decide) (by decide)⟩

end TsRestApi
